import Mathlib

/-!
Verification of the `myauthprod` authentication gateway.

The repository contains five near-duplicate Express applications, differing in the
session-store backend and in details of the authorization and error-handling wiring:

* the first variant of `src/server.js` (in-memory sessions, no rejection step);
* the MongoStore variant of `src/server.js` (rejection step, no try/catch);
* the Redis variant of `src/server.js` (rejection step, try/catch, `rolling: true`);
* the `api/index.js` variant of `src/server.js` (combined `||` allow-list condition);
* `src/unnamed/part_000` (Postgres store; its verify callback, routes and session
  configuration are textually identical to the Redis variant's).

This file gives a shallow embedding of the data these programs manipulate (profiles,
users, sessions, responses, session configuration) and of the route handlers and the
passport verify callbacks, and proves the behavioural properties stated about them.
Library middleware that the applications compose (passport's `done` protocol,
connect-flash's read-once slots, express-session's `rolling` cookie policy) is embedded
according to its documented semantics, since the applications are configuration of it.
-/

namespace MyAuth

/-- JS `String.prototype.endsWith`: the receiver ends with the given suffix.
Modelled over the character sequences of the two strings. -/
def jsEndsWith (s suffix : String) : Bool :=
  suffix.data.isSuffixOf s.data

/-- The student domain suffix checked by every variant's verify callback. -/
def studentDomain : String := "@stu.pathfinder-mm.org"

/-- The hard-coded personal-address exception accepted by every variant. -/
def exceptionEmail : String := "avagarimike11@gmail.com"

/-- Rejection flash message of the Postgres, Redis and api variants. -/
def rejectionMessage : String :=
  "You are not a verified student of Pathfinder Institute Myanmar."

/-- Rejection flash message of the MongoStore variant (it lacks the article "a"). -/
def rejectionMessageMongo : String :=
  "You are not verified student of Pathfinder Institute Myanmar."

/-- The slice of the Google profile that the verify callbacks read: the list of email
address values (`profile.emails[i].value`) and `profile.displayName`. -/
structure Profile where
  emails : List String
  displayName : String
deriving DecidableEq, Repr

/-- The user object passed to `done(null, { email, name, role })`. -/
structure User where
  email : String
  name : String
  role : String
deriving DecidableEq, Repr

/-- Outcome of a passport verify callback. -/
inductive VerifyResult where
  /-- The callback called `done(null, user)`: the user is authenticated. -/
  | ok (user : User)
  /-- The callback called `done(null, false, { message })`: authentication failure,
  which triggers `failureRedirect` and, with `failureFlash`, flashes the message. -/
  | fail (message : String)
  /-- The callback called `done(err, null)` from its catch block: a delegation error
  handed to the framework's error handling, not the failure-redirect path. -/
  | error
  /-- The callback threw and had no try/catch, so the exception escaped it. -/
  | thrown
deriving DecidableEq, Repr

/-- Verify callback of the first variant of `src/server.js` (lines 34-50): role logic
only, with no `isAuthorized` flag, no rejection step and no try/catch. Every profile
with an email is passed to `done(null, user)`. Reading `profile.emails[0].value` of a
profile without emails throws, and the exception escapes the callback. -/
def verifyV1 (p : Profile) : VerifyResult :=
  match p.emails.head? with
  | none => VerifyResult.thrown
  | some email =>
    let role0 := "general"
    let role1 := if jsEndsWith email studentDomain then "student" else role0
    let role2 := if email == exceptionEmail then "student" else role1
    VerifyResult.ok { email := email, name := p.displayName, role := role2 }

/-- Verify callback shared (textually identical) by `src/unnamed/part_000` (lines
92-120, Postgres variant) and the Redis variant of `src/server.js` (lines 410-438):
two sequential `if` statements set `role`/`isAuthorized`, unauthorized emails are
rejected with `done(null, false, message)`, and the whole body is wrapped in try/catch,
so a missing email becomes `done(err, null)`. -/
def verify (p : Profile) : VerifyResult :=
  match p.emails.head? with
  | none => VerifyResult.error
  | some email =>
    let role0 := "general"
    let isAuthorized0 := false
    let role1 := if jsEndsWith email studentDomain then "student" else role0
    let isAuthorized1 := if jsEndsWith email studentDomain then true else isAuthorized0
    let role2 := if email == exceptionEmail then "student" else role1
    let isAuthorized2 := if email == exceptionEmail then true else isAuthorized1
    if !isAuthorized2 then VerifyResult.fail rejectionMessage
    else VerifyResult.ok { email := email, name := p.displayName, role := role2 }

/-- Verify callback of the MongoStore variant of `src/server.js` (lines 188-216): the
same sequential role logic and rejection step, with its own message text, but no
try/catch, so a missing email lets the exception escape the callback. -/
def verifyMongo (p : Profile) : VerifyResult :=
  match p.emails.head? with
  | none => VerifyResult.thrown
  | some email =>
    let role0 := "general"
    let isAuthorized0 := false
    let role1 := if jsEndsWith email studentDomain then "student" else role0
    let isAuthorized1 := if jsEndsWith email studentDomain then true else isAuthorized0
    let role2 := if email == exceptionEmail then "student" else role1
    let isAuthorized2 := if email == exceptionEmail then true else isAuthorized1
    if !isAuthorized2 then VerifyResult.fail rejectionMessageMongo
    else VerifyResult.ok { email := email, name := p.displayName, role := role2 }

/-- Verify callback of the `api/index.js` variant of `src/server.js` (lines 603-629):
one combined condition `email.endsWith(...) || email === ...` guards a single
assignment of `role`/`isAuthorized`; rejection step and try/catch as in `verify`. -/
def verifyApi (p : Profile) : VerifyResult :=
  match p.emails.head? with
  | none => VerifyResult.error
  | some email =>
    let role0 := "general"
    let isAuthorized0 := false
    let cond := jsEndsWith email studentDomain || email == exceptionEmail
    let role1 := if cond then "student" else role0
    let isAuthorized1 := if cond then true else isAuthorized0
    if !isAuthorized1 then VerifyResult.fail rejectionMessage
    else VerifyResult.ok { email := email, name := p.displayName, role := role1 }

/-- The two allow-list predicates. -/
inductive Pred where
  | domainSuffix
  | exactException
deriving DecidableEq, Repr

/-- Predicates evaluated, in order, by the sequential if/if form of the allow-list
(first, Postgres, MongoStore and Redis variants): both if-conditions execute
unconditionally, whatever the email. -/
def evalTraceSeq (_email : String) : List Pred :=
  [Pred.domainSuffix, Pred.exactException]

/-- Predicates evaluated by the api variant's combined condition under the JS
short-circuit semantics of `||`: the exact-match test runs only when the domain-suffix
test returned false. -/
def evalTraceApi (email : String) : List Pred :=
  if jsEndsWith email studentDomain then [Pred.domainSuffix]
  else [Pred.domainSuffix, Pred.exactException]

/-- The role value after the two sequential role assignments of the if/if form: the
second `if` reassigns the role over whatever the first one left there. -/
def roleSeq (email : String) : String :=
  let role0 := "general"
  let role1 := if jsEndsWith email studentDomain then "student" else role0
  if email == exceptionEmail then "student" else role1

/-- The session state the routes read and write: the passport user (the Principal, if
any) and the connect-flash "error" slot. -/
structure Session where
  user : Option User
  flashError : List String
deriving DecidableEq, Repr

/-- passport's `req.isAuthenticated()`: true iff the session holds a user. -/
def isAuthenticated (s : Session) : Bool :=
  s.user.isSome

/-- The observable outcome of a route handler. -/
inductive Response where
  /-- `res.redirect(location)`. -/
  | redirect (location : String)
  /-- `res.send(html)`: a page body. -/
  | page (html : String)
  /-- `next(err)` or `done(err)`: handed to the framework's error handler. -/
  | nextError
  /-- An exception escaped the handler uncaught. -/
  | uncaught
deriving DecidableEq, Repr

/-- Redirect target of `ensureLoggedIn` in the first variant. -/
def entryPageV1 : String := "/login.html"

/-- Redirect target of `ensureLoggedIn` in all other variants. -/
def entryPage : String := "/index.html"

/-- Panel rendered for role "student" by every dashboard template. -/
def studentPanel : String :=
  "<div class=\"card stu\"><h3>Student Docs Section</h3></div>"

/-- Panel rendered for every other authenticated role. -/
def enrollmentPanel : String :=
  "<div class=\"card gen\"><h3>Enrollment Section</h3></div>"

/-- The role-conditioned ternary of the dashboard template:
`role === "student" ? studentPanel : enrollmentPanel`. -/
def dashboardPanel (role : String) : String :=
  if role == "student" then studentPanel else enrollmentPanel

/-- The data-bearing part of the dashboard page: the interpolations of name, email and
role and the role-conditioned panel, in template order (the static head and style
markup around them is elided). -/
def dashboardHtml (u : User) : String :=
  "<h2>Welcome " ++ u.name ++ "</h2><p>Email: " ++ u.email ++ "</p><p>Role: <b>" ++
    u.role ++ "</b></p>" ++ dashboardPanel u.role ++ "<a href=\"/logout\">Logout</a>"

/-- `GET /dashboard` behind `ensureLoggedIn` (Postgres, MongoStore and Redis variants):
an unauthenticated request is redirected to `/index.html`, an authenticated one is sent
the role-conditioned page. -/
def dashboard (s : Session) : Response :=
  match s.user with
  | none => Response.redirect entryPage
  | some u => Response.page (dashboardHtml u)

/-- `GET /dashboard` behind `ensureLoggedIn` in the first variant, whose
`ensureLoggedIn` redirects to `/login.html` instead. -/
def dashboardV1 (s : Session) : Response :=
  match s.user with
  | none => Response.redirect entryPageV1
  | some u => Response.page (dashboardHtml u)

/-- `GET /auth/google/callback` under passport's documented semantics:
`done(null, user)` logs the user into the session and the success handler redirects to
`/dashboard`; `done(null, false, message)` with `failureFlash: true` appends the message
to the session's "error" flash slot and redirects to the configured `failureRedirect`;
`done(err)` goes to the framework error handler; an uncaught exception escapes. -/
def authCallback (failureRedirect : String) (vf : Profile → VerifyResult)
    (s : Session) (p : Profile) : Session × Response :=
  match vf p with
  | VerifyResult.ok u => ({ s with user := some u }, Response.redirect "/dashboard")
  | VerifyResult.fail msg =>
      ({ s with flashError := s.flashError ++ [msg] },
        Response.redirect failureRedirect)
  | VerifyResult.error => (s, Response.nextError)
  | VerifyResult.thrown => (s, Response.uncaught)

/-- connect-flash's `req.flash("error")` with no message argument: returns every message
stored under the key and clears the slot (read-once). -/
def flashTake (s : Session) : List String × Session :=
  (s.flashError, { s with flashError := [] })

/-- Uppercase hexadecimal digit of a value below 16. -/
def hexDigit (n : Nat) : Char :=
  if n < 10 then Char.ofNat (48 + n) else Char.ofNat (55 + n)

/-- Percent-encoding of one byte value. -/
def percentByte (n : Nat) : String :=
  String.mk [Char.ofNat 37, hexDigit (n / 16 % 16), hexDigit (n % 16)]

/-- Characters that JS `encodeURIComponent` leaves unescaped. -/
def uriUnreserved (c : Char) : Bool :=
  c.isAlphanum || c == Char.ofNat 45 || c == Char.ofNat 95 || c == Char.ofNat 46 ||
    c == Char.ofNat 33 || c == Char.ofNat 126 || c == Char.ofNat 42 ||
    c == Char.ofNat 40 || c == Char.ofNat 41 || c == Char.ofNat 39

/-- JS `encodeURIComponent`, modelled on ASCII strings (every message in these
applications is ASCII): unreserved characters pass through, every other character is
percent-encoded from its code point, which below 0x80 equals its single UTF-8 byte. -/
def encodeURIComponent (s : String) : String :=
  String.join (s.data.map fun c =>
    if uriUnreserved c then String.mk [c] else percentByte c.toNat)

/-- `GET /auth/failure` handler of the MongoStore, Postgres and Redis variants: read
(and thereby clear) the "error" flash messages, pick the first or the "Login failed."
default, and redirect to `/index.html` with the message URI-encoded in the `authError`
query parameter. -/
def authFailure (s : Session) : Session × Response :=
  let read := flashTake s
  let errorMessage :=
    match read.1 with
    | [] => "Login failed."
    | m :: _ => m
  (read.2, Response.redirect ("/index.html?authError=" ++ encodeURIComponent errorMessage))

/-- `GET /logout` of the first variant: an error from `req.logout` is logged with
`console.error("Logout Error:", err)` and answered with a redirect to `/`; otherwise
`req.session.destroy` runs, and its callback takes no error argument — any store-delete
error is ignored — and redirects to `/index.html`. The returned list is what was
logged. -/
def logoutV1 (logoutErr _destroyErr : Option String) : List String × Response :=
  match logoutErr with
  | some e => (["Logout Error: " ++ e], Response.redirect "/")
  | none => ([], Response.redirect "/index.html")

/-- `GET /logout` of the Postgres and Redis variants: an error from `req.logout` goes to
`next(err)`; the destroy callback ignores any store-delete error and redirects. -/
def logoutPg (logoutErr _destroyErr : Option String) : List String × Response :=
  match logoutErr with
  | some _ => ([], Response.nextError)
  | none => ([], Response.redirect "/index.html")

/-- `GET /logout` of the api variant: the logout callback takes no error argument at
all, and the destroy callback ignores its error; the user is always redirected. -/
def logoutApi (_logoutErr _destroyErr : Option String) : List String × Response :=
  ([], Response.redirect "/index.html")

/-- The expiration-relevant slice of each variant's express-session configuration:
the `rolling` flag, the cookie `maxAge` in milliseconds (none when the variant sets no
cookie block, leaving the default browser-session cookie), and the store `ttl` in
seconds (none when no store option or no ttl option is given). -/
structure SessionConfig where
  resave : Bool
  saveUninitialized : Bool
  rolling : Bool
  cookieMaxAgeMs : Option Nat
  storeTtlSec : Option Nat
deriving DecidableEq, Repr

/-- Session configuration of the first variant (lines 12-18 of `src/server.js`): only
`secret`, `resave: false`, `saveUninitialized: false`; `rolling` defaults to false and
no cookie or store options are set. -/
def cfgV1 : SessionConfig :=
  { resave := false, saveUninitialized := false, rolling := false,
    cookieMaxAgeMs := none, storeTtlSec := none }

/-- Session configuration of the MongoStore variant (lines 158-171): a store with
`ttl: 14 * 24 * 60 * 60`, but no `rolling` flag and no cookie block. -/
def cfgMongo : SessionConfig :=
  { resave := false, saveUninitialized := false, rolling := false,
    cookieMaxAgeMs := none, storeTtlSec := some (14 * 24 * 60 * 60) }

/-- Session configuration of `src/unnamed/part_000` (lines 62-75, Postgres store):
`rolling: true` and `cookie.maxAge` of 14 days in milliseconds; the store is given no
ttl option. -/
def cfgPg : SessionConfig :=
  { resave := false, saveUninitialized := false, rolling := true,
    cookieMaxAgeMs := some (14 * 24 * 60 * 60 * 1000), storeTtlSec := none }

/-- Session configuration of the Redis variant (lines 360-393): `rolling: true`,
`cookie.maxAge` of 14 days in milliseconds and a store ttl of 14 days in seconds. -/
def cfgRedis : SessionConfig :=
  { resave := false, saveUninitialized := false, rolling := true,
    cookieMaxAgeMs := some (14 * 24 * 60 * 60 * 1000),
    storeTtlSec := some (14 * 24 * 60 * 60) }

/-- Session configuration of the api variant (lines 561-587): identical expiration
settings to the Redis variant. -/
def cfgApi : SessionConfig :=
  { resave := false, saveUninitialized := false, rolling := true,
    cookieMaxAgeMs := some (14 * 24 * 60 * 60 * 1000),
    storeTtlSec := some (14 * 24 * 60 * 60) }

/-- Cookie expiration after a response to a request arriving at time `now` (ms), given
the expiration the session cookie had before the request: express-session with
`rolling: true` and a `maxAge` re-sends the cookie on every response with
`expires = now + maxAge`; otherwise the cookie keeps the value set when the session was
created. -/
def cookieExpiryAfterRequest (cfg : SessionConfig) (now : Nat)
    (prev : Option Nat) : Option Nat :=
  if cfg.rolling then
    match cfg.cookieMaxAgeMs with
    | some m => some (now + m)
    | none => prev
  else prev

/-- Shared helper: an email ending in the student domain, or equal to the exception
address, is accepted with role "student" by every variant's verify callback. -/
theorem verify_allowed (p : Profile) (email : String)
    (hhead : p.emails.head? = some email)
    (h : jsEndsWith email studentDomain = true ∨ email = exceptionEmail) :
    verifyV1 p = VerifyResult.ok { email := email, name := p.displayName, role := "student" } ∧
    verify p = VerifyResult.ok { email := email, name := p.displayName, role := "student" } ∧
    verifyMongo p = VerifyResult.ok { email := email, name := p.displayName, role := "student" } ∧
    verifyApi p = VerifyResult.ok { email := email, name := p.displayName, role := "student" } := by
  rcases h with h | h
  · refine ⟨?_, ?_, ?_, ?_⟩ <;> simp [verifyV1, verify, verifyMongo, verifyApi, hhead, h]
  · subst h
    refine ⟨?_, ?_, ?_, ?_⟩ <;> simp [verifyV1, verify, verifyMongo, verifyApi, hhead]

/-- Shared helper: an email neither ending in the student domain nor equal to the
exception address is rejected by the variants with a rejection step, and accepted with
role "general" by the first variant, which has none. -/
theorem verify_rejected (p : Profile) (email : String)
    (hhead : p.emails.head? = some email)
    (hdom : jsEndsWith email studentDomain = false)
    (hexc : email ≠ exceptionEmail) :
    verify p = VerifyResult.fail rejectionMessage ∧
    verifyMongo p = VerifyResult.fail rejectionMessageMongo ∧
    verifyApi p = VerifyResult.fail rejectionMessage ∧
    verifyV1 p = VerifyResult.ok { email := email, name := p.displayName, role := "general" } := by
  have hbeq : (email == exceptionEmail) = false := by
    simp [hexc]
  refine ⟨?_, ?_, ?_, ?_⟩ <;>
    simp [verify, verifyMongo, verifyApi, verifyV1, hhead, hdom, hbeq]

/-- Shared helper: every user the Postgres/Redis verify callback accepts has role
"student". -/
theorem verify_ok_role (p : Profile) (u : User)
    (h : verify p = VerifyResult.ok u) : u.role = "student" := by
  unfold verify at h
  cases hh : p.emails.head? with
  | none => rw [hh] at h; exact absurd h (by simp)
  | some email =>
    rw [hh] at h
    cases h1 : jsEndsWith email studentDomain <;>
      cases h2 : email == exceptionEmail <;>
      simp [h1, h2] at h <;>
      (subst h; rfl)

/-- Shared helper: every user the MongoStore verify callback accepts has role
"student". -/
theorem verifyMongo_ok_role (p : Profile) (u : User)
    (h : verifyMongo p = VerifyResult.ok u) : u.role = "student" := by
  unfold verifyMongo at h
  cases hh : p.emails.head? with
  | none => rw [hh] at h; exact absurd h (by simp)
  | some email =>
    rw [hh] at h
    cases h1 : jsEndsWith email studentDomain <;>
      cases h2 : email == exceptionEmail <;>
      simp [h1, h2] at h <;>
      (subst h; rfl)

/-- Shared helper: every user the api-variant verify callback accepts has role
"student". -/
theorem verifyApi_ok_role (p : Profile) (u : User)
    (h : verifyApi p = VerifyResult.ok u) : u.role = "student" := by
  unfold verifyApi at h
  cases hh : p.emails.head? with
  | none => rw [hh] at h; exact absurd h (by simp)
  | some email =>
    rw [hh] at h
    cases h1 : jsEndsWith email studentDomain <;>
      cases h2 : email == exceptionEmail <;>
      simp [h1, h2] at h <;>
      (subst h; rfl)

/-- C1: for every email that ends in the student domain "@stu.pathfinder-mm.org", or
that exactly equals the fixed exception address "avagarimike11@gmail.com", the verify
callback of every variant authorizes the user with role "student"
(`done(null, { email, name, role: "student" })`). -/
theorem c1_allowlist_grants_student (p : Profile) (email : String)
    (hhead : p.emails.head? = some email)
    (h : jsEndsWith email studentDomain = true ∨ email = exceptionEmail) :
    verifyV1 p = VerifyResult.ok { email := email, name := p.displayName, role := "student" } ∧
    verify p = VerifyResult.ok { email := email, name := p.displayName, role := "student" } ∧
    verifyMongo p = VerifyResult.ok { email := email, name := p.displayName, role := "student" } ∧
    verifyApi p = VerifyResult.ok { email := email, name := p.displayName, role := "student" } :=
  verify_allowed p email hhead h

/-- Witness for c1_allowlist_grants_student at the address
student1@stu.pathfinder-mm.org. -/
theorem c1_allowlist_grants_student_witness :
    verifyV1 { emails := ["student1@stu.pathfinder-mm.org"], displayName := "Student One" } =
      VerifyResult.ok
        { email := "student1@stu.pathfinder-mm.org", name := "Student One", role := "student" } ∧
    verify { emails := ["student1@stu.pathfinder-mm.org"], displayName := "Student One" } =
      VerifyResult.ok
        { email := "student1@stu.pathfinder-mm.org", name := "Student One", role := "student" } ∧
    verifyMongo { emails := ["student1@stu.pathfinder-mm.org"], displayName := "Student One" } =
      VerifyResult.ok
        { email := "student1@stu.pathfinder-mm.org", name := "Student One", role := "student" } ∧
    verifyApi { emails := ["student1@stu.pathfinder-mm.org"], displayName := "Student One" } =
      VerifyResult.ok
        { email := "student1@stu.pathfinder-mm.org", name := "Student One", role := "student" } :=
  c1_allowlist_grants_student
    { emails := ["student1@stu.pathfinder-mm.org"], displayName := "Student One" }
    "student1@stu.pathfinder-mm.org" rfl (Or.inl (by decide))

/-- C2 counterexample: the first variant of `src/server.js` has no rejection step, so
the non-allow-listed email random@gmail.com is authenticated with role "general" via
`done(null, user)` instead of being rejected as the claim states. -/
theorem c2_counterexample :
    verifyV1 { emails := ["random@gmail.com"], displayName := "Random" } =
      VerifyResult.ok { email := "random@gmail.com", name := "Random", role := "general" } := by
  decide

/-- C2 as amended: in the variants with a rejection step (Postgres/Redis, MongoStore,
api), every email neither ending in the student domain nor equal to the exception
address is rejected with `done(null, false, message)` — the role value "general" is
never surfaced there — while the first variant authenticates such an email with role
"general". -/
theorem c2_reject_outside_allowlist (p : Profile) (email : String)
    (hhead : p.emails.head? = some email)
    (hdom : jsEndsWith email studentDomain = false)
    (hexc : email ≠ exceptionEmail) :
    verify p = VerifyResult.fail rejectionMessage ∧
    verifyMongo p = VerifyResult.fail rejectionMessageMongo ∧
    verifyApi p = VerifyResult.fail rejectionMessage ∧
    verifyV1 p = VerifyResult.ok { email := email, name := p.displayName, role := "general" } :=
  verify_rejected p email hhead hdom hexc

/-- Witness for c2_reject_outside_allowlist at the address random@gmail.com. -/
theorem c2_reject_outside_allowlist_witness :
    verify { emails := ["random@gmail.com"], displayName := "Rand" } =
      VerifyResult.fail rejectionMessage ∧
    verifyMongo { emails := ["random@gmail.com"], displayName := "Rand" } =
      VerifyResult.fail rejectionMessageMongo ∧
    verifyApi { emails := ["random@gmail.com"], displayName := "Rand" } =
      VerifyResult.fail rejectionMessage ∧
    verifyV1 { emails := ["random@gmail.com"], displayName := "Rand" } =
      VerifyResult.ok { email := "random@gmail.com", name := "Rand", role := "general" } :=
  c2_reject_outside_allowlist { emails := ["random@gmail.com"], displayName := "Rand" }
    "random@gmail.com" rfl (by decide) (by decide)

/-- C3: a request to the protected dashboard route whose session holds no Principal is
answered with a redirect to the public entry page, in the first variant and in the
others alike; the response is the same constant redirect for every unauthenticated
session, so it is never a page body and carries no Principal data. -/
theorem c3_unauthenticated_dashboard_redirects (s : Session) (h : s.user = none) :
    dashboard s = Response.redirect entryPage ∧
    dashboardV1 s = Response.redirect entryPageV1 := by
  simp [dashboard, dashboardV1, h]

/-- Witness for c3_unauthenticated_dashboard_redirects at an empty session. -/
theorem c3_unauthenticated_dashboard_redirects_witness :
    dashboard { user := none, flashError := [] } = Response.redirect entryPage ∧
    dashboardV1 { user := none, flashError := [] } = Response.redirect entryPageV1 :=
  c3_unauthenticated_dashboard_redirects { user := none, flashError := [] } rfl

/-- C4: a callback carrying an email that fails the allow-list (MongoStore variant)
appends the human-readable rejection reason to the one-shot flash slot and redirects to
/auth/failure, leaves the session without a Principal, and the failure handler's read
clears the slot, so a second read finds it empty. -/
theorem c4_flash_one_shot (s : Session) (p : Profile) (email : String)
    (hu : s.user = none) (hf : s.flashError = [])
    (hhead : p.emails.head? = some email)
    (hdom : jsEndsWith email studentDomain = false)
    (hexc : email ≠ exceptionEmail) :
    (authCallback "/auth/failure" verifyMongo s p).2 = Response.redirect "/auth/failure" ∧
    ((authCallback "/auth/failure" verifyMongo s p).1).user = none ∧
    ((authCallback "/auth/failure" verifyMongo s p).1).flashError = [rejectionMessageMongo] ∧
    (authFailure ((authCallback "/auth/failure" verifyMongo s p).1)).2 =
      Response.redirect ("/index.html?authError=" ++ encodeURIComponent rejectionMessageMongo) ∧
    ((authFailure ((authCallback "/auth/failure" verifyMongo s p).1)).1).flashError = [] ∧
    (flashTake ((authFailure ((authCallback "/auth/failure" verifyMongo s p).1)).1)).1 = [] := by
  have hm := (verify_rejected p email hhead hdom hexc).2.1
  simp [authCallback, hm, authFailure, flashTake, hu, hf]

/-- Witness for c4_flash_one_shot at the address random@gmail.com. -/
theorem c4_flash_one_shot_witness :
    (authCallback "/auth/failure" verifyMongo { user := none, flashError := [] }
      { emails := ["random@gmail.com"], displayName := "Random" }).2 =
      Response.redirect "/auth/failure" ∧
    ((authCallback "/auth/failure" verifyMongo { user := none, flashError := [] }
      { emails := ["random@gmail.com"], displayName := "Random" }).1).user = none ∧
    ((authCallback "/auth/failure" verifyMongo { user := none, flashError := [] }
      { emails := ["random@gmail.com"], displayName := "Random" }).1).flashError =
      [rejectionMessageMongo] ∧
    (authFailure ((authCallback "/auth/failure" verifyMongo { user := none, flashError := [] }
      { emails := ["random@gmail.com"], displayName := "Random" }).1)).2 =
      Response.redirect ("/index.html?authError=" ++ encodeURIComponent rejectionMessageMongo) ∧
    ((authFailure ((authCallback "/auth/failure" verifyMongo { user := none, flashError := [] }
      { emails := ["random@gmail.com"], displayName := "Random" }).1)).1).flashError = [] ∧
    (flashTake ((authFailure ((authCallback "/auth/failure" verifyMongo
      { user := none, flashError := [] }
      { emails := ["random@gmail.com"], displayName := "Random" }).1)).1)).1 = [] :=
  c4_flash_one_shot { user := none, flashError := [] }
    { emails := ["random@gmail.com"], displayName := "Random" } "random@gmail.com"
    rfl rfl rfl (by decide) (by decide)

/-- C5 counterexample: a provider assertion with no email is not turned into an
unauthenticated failure with a generic message: the Postgres/Redis and api callbacks
catch the TypeError and call `done(err, null)` — a delegation error — and the first and
MongoStore callbacks, having no try/catch, let the exception escape. -/
theorem c5_counterexample :
    verify { emails := [], displayName := "NoEmail" } = VerifyResult.error ∧
    verifyApi { emails := [], displayName := "NoEmail" } = VerifyResult.error ∧
    verifyV1 { emails := [], displayName := "NoEmail" } = VerifyResult.thrown ∧
    verifyMongo { emails := [], displayName := "NoEmail" } = VerifyResult.thrown := by
  decide

/-- C5 as amended: a provider assertion with no email makes
`profile.emails[0].value` throw; the variants with try/catch (Postgres/Redis, api)
catch it and report `done(err, null)`, a delegation error handed to the framework's
error handler rather than the flash-message failure path, while the first and
MongoStore variants let the exception escape the callback. -/
theorem c5_missing_email_is_error (p : Profile) (h : p.emails = []) :
    verify p = VerifyResult.error ∧
    verifyApi p = VerifyResult.error ∧
    verifyV1 p = VerifyResult.thrown ∧
    verifyMongo p = VerifyResult.thrown := by
  simp [verify, verifyApi, verifyV1, verifyMongo, h]

/-- Witness for c5_missing_email_is_error at a concrete empty-email profile. -/
theorem c5_missing_email_is_error_witness :
    verify { emails := [], displayName := "X" } = VerifyResult.error ∧
    verifyApi { emails := [], displayName := "X" } = VerifyResult.error ∧
    verifyV1 { emails := [], displayName := "X" } = VerifyResult.thrown ∧
    verifyMongo { emails := [], displayName := "X" } = VerifyResult.thrown :=
  c5_missing_email_is_error { emails := [], displayName := "X" } rfl

/-- C6 counterexample: when only the store delete fails during logout, nothing is
logged — the log list is empty — although the user is still redirected to /index.html;
the claim's "the error is logged" is false. -/
theorem c6_counterexample :
    logoutV1 none (some "store delete failed") = ([], Response.redirect "/index.html") ∧
    logoutPg none (some "store delete failed") = ([], Response.redirect "/index.html") ∧
    logoutApi none (some "store delete failed") = ([], Response.redirect "/index.html") := by
  decide

/-- C6 as amended: a store-delete failure during logout is ignored rather than logged —
the `req.session.destroy` callback takes no error argument in any variant — and the
user is always redirected to the logged-out landing page /index.html (fail-open); only
an error from `req.logout` itself is logged and redirected to `/` in the first variant,
or forwarded to the error handler in the Postgres/Redis variants. -/
theorem c6_logout_fails_open (e : String) :
    logoutV1 none (some e) = ([], Response.redirect "/index.html") ∧
    logoutPg none (some e) = ([], Response.redirect "/index.html") ∧
    logoutApi none (some e) = ([], Response.redirect "/index.html") ∧
    logoutApi (some e) (some e) = ([], Response.redirect "/index.html") ∧
    logoutV1 (some e) none = (["Logout Error: " ++ e], Response.redirect "/") ∧
    logoutPg (some e) none = ([], Response.nextError) := by
  refine ⟨rfl, rfl, rfl, rfl, rfl, rfl⟩

/-- C7 counterexample: in the MongoStore variant (no `rolling`, no cookie `maxAge`) and
in the first variant, a request at time 1000 leaves the cookie expiration unchanged
instead of extending it to now + 14 days as the claim states. -/
theorem c7_counterexample :
    cookieExpiryAfterRequest cfgMongo 1000 none = none ∧
    cookieExpiryAfterRequest cfgV1 1000 none = none ∧
    cfgMongo.rolling = false ∧ cfgV1.rolling = false := by
  decide

/-- C7 as amended: the Postgres, Redis and api variants set `rolling: true` with a
14-day cookie `maxAge`, so every request resets the cookie expiration to the request
time plus 14 days, independent of the previous expiration (not a fixed offset from
creation); the MongoStore and first variants set neither `rolling` nor a cookie
`maxAge` — the MongoStore variant only gives its store a 14-day TTL — so a request does
not move their cookie expiration. -/
theorem c7_sliding_expiration (now : Nat) (prev : Option Nat) :
    cookieExpiryAfterRequest cfgPg now prev = some (now + 14 * 24 * 60 * 60 * 1000) ∧
    cookieExpiryAfterRequest cfgRedis now prev = some (now + 14 * 24 * 60 * 60 * 1000) ∧
    cookieExpiryAfterRequest cfgApi now prev = some (now + 14 * 24 * 60 * 60 * 1000) ∧
    cookieExpiryAfterRequest cfgMongo now prev = prev ∧
    cookieExpiryAfterRequest cfgV1 now prev = prev ∧
    cfgMongo.storeTtlSec = some (14 * 24 * 60 * 60) := by
  refine ⟨rfl, rfl, rfl, rfl, rfl, rfl⟩

/-- C8 counterexample: in the api variant the combined `||` condition short-circuits:
on an email matching the domain suffix the exact-match predicate is never evaluated, so
allow-list evaluation is not short-circuit-free as the claim states. -/
theorem c8_counterexample :
    evalTraceApi "s@stu.pathfinder-mm.org" = [Pred.domainSuffix] ∧
    Pred.exactException ∉ evalTraceApi "s@stu.pathfinder-mm.org" := by
  decide

/-- C8 as amended: in the sequential if/if variants both predicates are always
evaluated and a later match reassigns the role over the earlier result; in the api
variant the `||` short-circuits, skipping the exact-match predicate whenever the domain
suffix matches; in every variant with a rejection step, an email matching neither
predicate is unauthorized. -/
theorem c8_evaluation_order (e₁ e₂ n : String)
    (h₁ : jsEndsWith e₁ studentDomain = true)
    (h₂ : jsEndsWith e₂ studentDomain = false)
    (h₃ : e₂ ≠ exceptionEmail) :
    evalTraceSeq e₁ = [Pred.domainSuffix, Pred.exactException] ∧
    evalTraceSeq e₂ = [Pred.domainSuffix, Pred.exactException] ∧
    evalTraceApi e₁ = [Pred.domainSuffix] ∧
    evalTraceApi e₂ = [Pred.domainSuffix, Pred.exactException] ∧
    roleSeq exceptionEmail = "student" ∧
    verify { emails := [e₂], displayName := n } = VerifyResult.fail rejectionMessage ∧
    verifyMongo { emails := [e₂], displayName := n } = VerifyResult.fail rejectionMessageMongo ∧
    verifyApi { emails := [e₂], displayName := n } = VerifyResult.fail rejectionMessage := by
  have hr := verify_rejected { emails := [e₂], displayName := n } e₂ rfl h₂ h₃
  refine ⟨rfl, rfl, ?_, ?_, ?_, hr.1, hr.2.1, hr.2.2.1⟩
  · simp [evalTraceApi, h₁]
  · simp [evalTraceApi, h₂]
  · simp [roleSeq]

/-- Witness for c8_evaluation_order at a domain-matching and a non-matching email. -/
theorem c8_evaluation_order_witness :
    evalTraceSeq "s@stu.pathfinder-mm.org" = [Pred.domainSuffix, Pred.exactException] ∧
    evalTraceSeq "random@gmail.com" = [Pred.domainSuffix, Pred.exactException] ∧
    evalTraceApi "s@stu.pathfinder-mm.org" = [Pred.domainSuffix] ∧
    evalTraceApi "random@gmail.com" = [Pred.domainSuffix, Pred.exactException] ∧
    roleSeq exceptionEmail = "student" ∧
    verify { emails := ["random@gmail.com"], displayName := "R" } =
      VerifyResult.fail rejectionMessage ∧
    verifyMongo { emails := ["random@gmail.com"], displayName := "R" } =
      VerifyResult.fail rejectionMessageMongo ∧
    verifyApi { emails := ["random@gmail.com"], displayName := "R" } =
      VerifyResult.fail rejectionMessage :=
  c8_evaluation_order "s@stu.pathfinder-mm.org" "random@gmail.com" "R"
    (by decide) (by decide) (by decide)

/-- C9: a callback whose email passes the allow-list logs the Principal with role
"student" into the session and redirects to /dashboard; the dashboard then serves the
page whose role-conditioned part is the student "documents" panel, while an
authenticated user of any other role is served the enrollment panel. -/
theorem c9_success_renders_student_panel (s : Session) (p : Profile) (email : String)
    (u : User)
    (hhead : p.emails.head? = some email)
    (h : jsEndsWith email studentDomain = true ∨ email = exceptionEmail)
    (hrole : u.role ≠ "student") :
    (authCallback "/auth/failure" verify s p).2 = Response.redirect "/dashboard" ∧
    ((authCallback "/auth/failure" verify s p).1).user =
      some { email := email, name := p.displayName, role := "student" } ∧
    dashboard ((authCallback "/auth/failure" verify s p).1) =
      Response.page (dashboardHtml { email := email, name := p.displayName, role := "student" }) ∧
    dashboardPanel "student" = studentPanel ∧
    dashboard { user := some u, flashError := [] } = Response.page (dashboardHtml u) ∧
    dashboardPanel u.role = enrollmentPanel := by
  have hv := (verify_allowed p email hhead h).2.1
  have hb : (u.role == "student") = false := by simp [hrole]
  simp [authCallback, hv, dashboard, dashboardPanel, hb]

/-- Witness for c9_success_renders_student_panel at student1@stu.pathfinder-mm.org and
a "general"-role user. -/
theorem c9_success_renders_student_panel_witness :
    (authCallback "/auth/failure" verify { user := none, flashError := [] }
      { emails := ["student1@stu.pathfinder-mm.org"], displayName := "Student One" }).2 =
      Response.redirect "/dashboard" ∧
    ((authCallback "/auth/failure" verify { user := none, flashError := [] }
      { emails := ["student1@stu.pathfinder-mm.org"], displayName := "Student One" }).1).user =
      some { email := "student1@stu.pathfinder-mm.org", name := "Student One",
             role := "student" } ∧
    dashboard ((authCallback "/auth/failure" verify { user := none, flashError := [] }
      { emails := ["student1@stu.pathfinder-mm.org"], displayName := "Student One" }).1) =
      Response.page (dashboardHtml
        { email := "student1@stu.pathfinder-mm.org", name := "Student One",
          role := "student" }) ∧
    dashboardPanel "student" = studentPanel ∧
    dashboard { user := some { email := "guest@gmail.com", name := "Guest", role := "general" },
                flashError := [] } =
      Response.page (dashboardHtml
        { email := "guest@gmail.com", name := "Guest", role := "general" }) ∧
    dashboardPanel
      (User.role { email := "guest@gmail.com", name := "Guest", role := "general" }) =
      enrollmentPanel :=
  c9_success_renders_student_panel { user := none, flashError := [] }
    { emails := ["student1@stu.pathfinder-mm.org"], displayName := "Student One" }
    "student1@stu.pathfinder-mm.org"
    { email := "guest@gmail.com", name := "Guest", role := "general" }
    rfl (Or.inl (by decide)) (by decide)

/-- C10: in every variant whose verify callback rejects unauthorized emails
(Postgres/Redis, MongoStore, api), every Principal the callback ever emits has role
"student", so the dashboard's role-conditioned branch always selects the student panel
and the enrollment panel is unreachable for users authenticated by those callbacks. -/
theorem c10_enrollment_branch_unreachable (p : Profile) (u : User)
    (h : verify p = VerifyResult.ok u ∨ verifyMongo p = VerifyResult.ok u ∨
      verifyApi p = VerifyResult.ok u) :
    u.role = "student" ∧ dashboardPanel u.role = studentPanel ∧
    dashboardPanel u.role ≠ enrollmentPanel := by
  have hr : u.role = "student" := by
    rcases h with h | h | h
    · exact verify_ok_role p u h
    · exact verifyMongo_ok_role p u h
    · exact verifyApi_ok_role p u h
  refine ⟨hr, by simp [dashboardPanel, hr], ?_⟩
  simp [dashboardPanel, hr, studentPanel, enrollmentPanel]

/-- Witness for c10_enrollment_branch_unreachable at a concrete accepted profile. -/
theorem c10_enrollment_branch_unreachable_witness :
    User.role { email := "a@stu.pathfinder-mm.org", name := "A", role := "student" } =
      "student" ∧
    dashboardPanel
      (User.role { email := "a@stu.pathfinder-mm.org", name := "A", role := "student" }) =
      studentPanel ∧
    dashboardPanel
      (User.role { email := "a@stu.pathfinder-mm.org", name := "A", role := "student" }) ≠
      enrollmentPanel :=
  c10_enrollment_branch_unreachable
    { emails := ["a@stu.pathfinder-mm.org"], displayName := "A" }
    { email := "a@stu.pathfinder-mm.org", name := "A", role := "student" }
    (Or.inl (by decide))

end MyAuth
